import Mathlib

/-!
Verification of the `event-hub` infrastructure stack (`src/unnamed/part_000`,
class `EventHub`).  The stack is purely declarative: the constructor builds a
fixed set of resource configurations from the props (`serviceName`, `stage`)
and the deployment environment (`region`, `account`).  We embed the declared
configuration as a Lean function of those inputs and prove the
configuration-consistency properties stated in the specification.
-/

namespace EventHub

/-! ## Dates and the partition-projection format -/

/-- A calendar hour: the value space of the `datehour` partition key. -/
structure DateHour where
  year : Nat
  month : Nat
  day : Nat
  hour : Nat
deriving DecidableEq, Repr

/-- Zero-pad a natural number to (at least) two decimal digits, as the
date-format tokens `MM`, `dd`, `HH` do. -/
def pad2 (n : Nat) : String :=
  if n < 10 then "0" ++ toString n else toString n

/-- Zero-pad a natural number to (at least) four decimal digits, as the
date-format token `yyyy` does. -/
def pad4 (n : Nat) : String :=
  if n < 10 then "000" ++ toString n
  else if n < 100 then "00" ++ toString n
  else if n < 1000 then "0" ++ toString n
  else toString n

/-- Interpreter for the date-format pattern language used by the table's
partition projection (`projection.datehour.format`): the tokens `yyyy`,
`MM`, `dd`, `HH` expand to padded date components, and any other character
is literal. -/
def applyFmt (d : DateHour) : List Char → List Char
  | [] => []
  | c :: rest =>
    if (c :: rest).take 4 = "yyyy".data then
      (pad4 d.year).data ++ applyFmt d (rest.drop 3)
    else if (c :: rest).take 2 = "MM".data then
      (pad2 d.month).data ++ applyFmt d (rest.drop 1)
    else if (c :: rest).take 2 = "dd".data then
      (pad2 d.day).data ++ applyFmt d (rest.drop 1)
    else if (c :: rest).take 2 = "HH".data then
      (pad2 d.hour).data ++ applyFmt d (rest.drop 1)
    else c :: applyFmt d rest
termination_by l => l.length
decreasing_by
  all_goals simp [List.length_drop]
  all_goals omega

/-- Apply a date-format string to a date. -/
def applyDateFormat (fmt : String) (d : DateHour) : String :=
  ⟨applyFmt d fmt.data⟩

/-- The projection format string declared on the events table
(`"projection.datehour.format"` in `part_000`). -/
def projectionDatehourFormat : String := "yyyy/MM/dd/HH"

/-- The `datehour` partition value the hourly projection generates for a
given calendar hour: the projection format applied to that hour. -/
def projectedDatehour (d : DateHour) : String :=
  applyDateFormat projectionDatehourFormat d

/-! ## Storage-location template and its resolution -/

/-- The marker the partition projection substitutes in
`storage.location.template`. -/
def datehourMarker : List Char := "${datehour}".data

/-- Substitution of the `${datehour}` marker: every occurrence of the
marker in the template is replaced by the partition value `val`; all other
characters are copied verbatim.  (This is how the query engine resolves
`storage.location.template` for a projected partition.) -/
def substDatehour (val : List Char) : List Char → List Char
  | [] => []
  | c :: rest =>
    if (c :: rest).take 11 = datehourMarker then
      val ++ substDatehour val (rest.drop 10)
    else c :: substDatehour val rest
termination_by l => l.length
decreasing_by
  all_goals simp [List.length_drop]
  all_goals omega

/-- Resolve a storage-location template at a concrete partition value. -/
def resolveTemplate (template value : String) : String :=
  ⟨substDatehour value.data template.data⟩

theorem substDatehour_nil (val : List Char) : substDatehour val [] = [] := by
  rw [substDatehour.eq_def]

theorem substDatehour_cons_ne (val : List Char) {c : Char} (rest : List Char)
    (h : c ≠ '$') : substDatehour val (c :: rest) = c :: substDatehour val rest := by
  rw [substDatehour.eq_def]
  dsimp only
  rw [if_neg]
  intro hc
  rw [List.take_succ_cons] at hc
  exact h (List.head_eq_of_cons_eq hc)

theorem substDatehour_marker (val l : List Char) :
    substDatehour val (datehourMarker ++ l) = val ++ substDatehour val l := by
  show substDatehour val ('$' :: ("{datehour}".data ++ l)) = val ++ substDatehour val l
  rw [substDatehour.eq_def]
  simp only [List.take_succ_cons]
  rw [List.take_left' (by decide), List.drop_left' (by decide)]
  simp [datehourMarker]

theorem substDatehour_append_no_dollar (val : List Char) {p : List Char} (t : List Char)
    (hp : ('$' : Char) ∉ p) :
    substDatehour val (p ++ t) = p ++ substDatehour val t := by
  induction p with
  | nil => simp
  | cons c p ih =>
    rw [List.mem_cons, not_or] at hp
    rw [List.cons_append, substDatehour_cons_ne val _ (fun hc => hp.1 hc.symm),
      ih hp.2, List.cons_append]

theorem resolveTemplate_eq (b r v : String) (hb : ('$' : Char) ∉ b.data)
    (hr : ('$' : Char) ∉ r.data) :
    resolveTemplate ("s3://" ++ b ++ "/" ++ r ++ "/${datehour}/") v
      = "s3://" ++ b ++ "/" ++ r ++ "/" ++ v ++ "/" := by
  apply String.ext
  have hdata : (("s3://" ++ b ++ "/" ++ r ++ "/${datehour}/") : String).data
      = ("s3://".data ++ b.data ++ ['/'] ++ r.data ++ ['/']) ++ (datehourMarker ++ ['/']) := by
    simp [String.data_append, datehourMarker]
  have hp : ('$' : Char) ∉ ("s3://".data ++ b.data ++ ['/'] ++ r.data ++ ['/']) := by
    simp [List.mem_append, hb, hr]
  show substDatehour v.data (("s3://" ++ b ++ "/" ++ r ++ "/${datehour}/") : String).data = _
  rw [hdata, substDatehour_append_no_dollar _ _ hp, substDatehour_marker,
    substDatehour_cons_ne _ _ (by decide), substDatehour_nil]
  simp [String.data_append]

set_option maxHeartbeats 1000000 in
theorem projectedDatehour_eq (d : DateHour) :
    projectedDatehour d
      = pad4 d.year ++ "/" ++ pad2 d.month ++ "/" ++ pad2 d.day ++ "/" ++ pad2 d.hour := by
  apply String.ext
  simp +decide [projectedDatehour, applyDateFormat, projectionDatehourFormat, applyFmt,
    String.data_append]

/-! ## The declared stack configuration (embedding of `EventHub`) -/

/-- Embedding of `EventHubProps`. -/
structure EventHubProps where
  serviceName : String
  stage : String
deriving DecidableEq, Repr

/-- The deployment environment of a stack instance, together with the
physical bucket name the provider assigns to the event-lake bucket (the
code only ever references it through the `eventLake.bucketName` token). -/
structure StackEnv where
  region : String
  account : String
  bucketName : String
deriving DecidableEq, Repr

/-- A condition inside an event-pattern field filter; the archive rule
only uses the existence form `{ exists: b }`. -/
inductive PatternCond where
  | existsCond : Bool → PatternCond
deriving DecidableEq, Repr

/-- An event-bus event pattern as declared by the archive rule: a list of
accepted sources and, per detail field, a disjunction of conditions. -/
structure EventPattern where
  source : List String
  detail : List (String × List PatternCond)
deriving DecidableEq, Repr

/-- Removal policies that can be declared on a resource. -/
inductive RemovalPolicy where
  | destroy
  | retain
deriving DecidableEq, Repr

/-- Declared configuration of the event-lake bucket.  `versioned = none`
means the construct declares no versioning setting. -/
structure BucketConfig where
  removalPolicy : RemovalPolicy
  versioned : Option Bool
deriving DecidableEq, Repr

/-- Declared configuration of the Firehose delivery stream. -/
structure DeliveryStreamConfig where
  destinationBucket : String
  dataOutputPrefix : String
deriving DecidableEq, Repr

/-- Declared configuration of the Glue catalog database. -/
structure DatabaseConfig where
  catalogId : String
  name : String
deriving DecidableEq, Repr

/-- Declared schema-change policy of the Glue crawler. -/
structure SchemaChangePolicy where
  updateBehavior : String
  deleteBehavior : String
deriving DecidableEq, Repr

/-- Declared configuration of the Glue crawler. -/
structure CrawlerConfig where
  databaseName : String
  s3TargetPath : String
  schemaChangePolicy : SchemaChangePolicy
deriving DecidableEq, Repr

/-- A declared table column (or partition key). -/
structure Column where
  name : String
  type : String
deriving DecidableEq, Repr

/-- Declared configuration of the Glue events table. -/
structure TableConfig where
  catalogId : String
  databaseName : String
  name : String
  tableType : String
  parameters : List (String × String)
  location : String
  columns : List Column
  partitionKeys : List Column
deriving DecidableEq, Repr

/-- Identifiers for the declared resources, used to state the explicit
provisioning-order dependency. -/
inductive ResourceId where
  | bus
  | eventLake
  | deliveryStream
  | glueDatabase
  | glueCrawler
  | eventsTable
deriving DecidableEq, Repr, Fintype

/-- The resources whose identifying handles are published as parameters. -/
inductive ResourceRef where
  | busArn
  | eventLakeName
  | glueDatabaseName
  | glueCrawlerName
  | glueTableName
deriving DecidableEq, Repr

/-- The whole declared topology produced by the `EventHub` constructor. -/
structure DeclaredStack where
  archivePattern : EventPattern
  eventLake : BucketConfig
  deliveryStream : DeliveryStreamConfig
  glueDatabase : DatabaseConfig
  glueCrawler : CrawlerConfig
  eventsTable : TableConfig
  dependencies : List (ResourceId × ResourceId)
  parameters : List (String × ResourceRef)
deriving DecidableEq, Repr

/-- Embedding of the `EventHub` constructor: the complete declared
configuration as a function of the props and the environment, in the order
the source declares it. -/
def mkEventHub (props : EventHubProps) (env : StackEnv) : DeclaredStack :=
  { archivePattern :=
      { source := ["custom"]
        detail := [("detail-type", [.existsCond true])] }
    eventLake :=
      { removalPolicy := .retain
        versioned := none }
    deliveryStream :=
      { destinationBucket := env.bucketName
        dataOutputPrefix := env.region ++ "/" }
    glueDatabase :=
      { catalogId := env.account
        name := "event_lake_" ++ props.stage }
    glueCrawler :=
      { databaseName := "event_lake_" ++ props.stage
        s3TargetPath := "s3://" ++ env.bucketName ++ "/"
        schemaChangePolicy :=
          { updateBehavior := "UPDATE_IN_DATABASE"
            deleteBehavior := "DEPRECATE_IN_DATABASE" } }
    eventsTable :=
      { catalogId := env.account
        databaseName := "event_lake_" ++ props.stage
        name := "events"
        tableType := "EXTERNAL_TABLE"
        parameters :=
          [("projection.enabled", "true"),
           ("projection.datehour.type", "date"),
           ("projection.datehour.format", "yyyy/MM/dd/HH"),
           ("projection.datehour.range", "2024/01/01/00,NOW"),
           ("projection.datehour.interval", "1"),
           ("projection.datehour.interval.unit", "HOURS"),
           ("storage.location.template",
             "s3://" ++ env.bucketName ++ "/" ++ env.region ++ "/${datehour}/"),
           ("case.insensitive", "FALSE")]
        location := "s3://" ++ env.bucketName ++ "/" ++ env.region ++ "/"
        columns :=
          [⟨"timestamp", "bigint"⟩, ⟨"type", "string"⟩,
           ⟨"data", "string"⟩, ⟨"from", "string"⟩]
        partitionKeys := [⟨"datehour", "string"⟩] }
    dependencies := [(.eventsTable, .glueDatabase)]
    parameters :=
      [("/vimo/" ++ props.stage ++ "/event-bus-arn", .busArn),
       ("/vimo/" ++ props.stage ++ "/event-lake-name", .eventLakeName),
       ("/vimo/" ++ props.stage ++ "/glue-database-name", .glueDatabaseName),
       ("/vimo/" ++ props.stage ++ "/glue-crawler-name", .glueCrawlerName),
       ("/vimo/" ++ props.stage ++ "/glue-table-name", .glueTableName)] }

/-! ## Events and event-pattern matching -/

/-- A published event, as far as the archive rule's pattern inspects it: a
source tag and the set of detail fields present (with their values). -/
structure Event where
  source : String
  detail : List (String × String)

/-- Whether an event's detail satisfies one condition attached to a detail
field: `{ exists: b }` holds exactly when the field's presence equals `b`. -/
def condSatisfied (e : Event) (k : String) : PatternCond → Bool
  | .existsCond b => (e.detail.any fun kv => kv.1 == k) == b

/-- Event-pattern matching: the event's source must be one of the listed
sources, and every constrained detail field must satisfy at least one of
its conditions. -/
def matchesPattern (p : EventPattern) (e : Event) : Bool :=
  p.source.contains e.source &&
    p.detail.all fun kc => kc.2.any fun c => condSatisfied e kc.1 c

/-! ## Delivery-stream output layout -/

/-- Modelled from the spec: the object-key prefix under which the delivery
stream lands a record received in calendar hour `d`.  The configured
`dataOutputPrefix` (the deploying region, declared in `part_000`) is
followed by the `<yyyy>/<MM>/<dd>/<HH>/` UTC time prefix; the time suffix
itself is default behavior of the managed delivery-stream service (the
code overrides no batching or prefix-format settings), per the spec's
object-storage layout contract. -/
def deliveredObjectPath (ds : DeliveryStreamConfig) (d : DateHour) : String :=
  "s3://" ++ ds.destinationBucket ++ "/" ++ ds.dataOutputPrefix ++
    pad4 d.year ++ "/" ++ pad2 d.month ++ "/" ++ pad2 d.day ++ "/" ++ pad2 d.hour ++ "/"

/-! ## Provisioning orders -/

/-- A provisioning order admitted by the declared topology: a linear order
on the declared resources in which every declared dependency is provisioned
before its dependent. -/
def admissibleOrder (stack : DeclaredStack) (order : List ResourceId) : Prop :=
  (∀ r : ResourceId, r ∈ order) ∧
    ∀ p ∈ stack.dependencies, order.indexOf p.2 < order.indexOf p.1

/-! ## Helper lemmas -/

theorem paramPath_inj (s : String) :
    Function.Injective (fun u : String => "/vimo/" ++ s ++ u) := by
  intro u v he
  apply String.ext
  have hd := congrArg String.data he
  simp only [String.data_append, List.append_assoc] at hd
  exact List.append_cancel_left (List.append_cancel_left hd)

theorem lookup_storage_template (props : EventHubProps) (env : StackEnv) :
    (mkEventHub props env).eventsTable.parameters.lookup "storage.location.template"
      = some ("s3://" ++ env.bucketName ++ "/" ++ env.region ++ "/${datehour}/") := rfl

/-! ## The claims -/

/-- C1: the object-storage layout `<region>/<yyyy>/<MM>/<dd>/<HH>/` produced by the
delivery stream's declared configuration (region output prefix followed by the
managed service's `yyyy/MM/dd/HH/` UTC time prefix, modelled from the spec) is
matched exactly by the events table's storage location and partition-projection
templates: for every datehour value generated by the projection format, the
table's `storage.location.template` resolved at that partition equals the path
the delivery stream lands records under for that calendar hour. -/
theorem c1_delivery_layout_matches_table_template (props : EventHubProps)
    (env : StackEnv) (d : DateHour) (hb : ('$' : Char) ∉ env.bucketName.data)
    (hr : ('$' : Char) ∉ env.region.data) :
    ((mkEventHub props env).eventsTable.parameters.lookup "storage.location.template").map
        (fun tmpl => resolveTemplate tmpl (projectedDatehour d))
      = some (deliveredObjectPath (mkEventHub props env).deliveryStream d) := by
  rw [lookup_storage_template, Option.map_some', resolveTemplate_eq _ _ _ hb hr,
    projectedDatehour_eq]
  congr 1
  apply String.ext
  simp [deliveredObjectPath, mkEventHub, String.data_append]

/-- Witness for C1 at a concrete stack and calendar hour. -/
theorem c1_witness :
    (('$' : Char) ∉ ("lake" : String).data)
      ∧ (('$' : Char) ∉ ("eu-west-1" : String).data)
      ∧ ((mkEventHub ⟨"service", "dev"⟩
            ⟨"eu-west-1", "111122223333", "lake"⟩).eventsTable.parameters.lookup
              "storage.location.template").map
            (fun tmpl => resolveTemplate tmpl (projectedDatehour ⟨2024, 3, 7, 5⟩))
        = some (deliveredObjectPath
            (mkEventHub ⟨"service", "dev"⟩
              ⟨"eu-west-1", "111122223333", "lake"⟩).deliveryStream ⟨2024, 3, 7, 5⟩) :=
  ⟨by decide, by decide,
    c1_delivery_layout_matches_table_template ⟨"service", "dev"⟩
      ⟨"eu-west-1", "111122223333", "lake"⟩ ⟨2024, 3, 7, 5⟩ (by decide) (by decide)⟩

/-- C2: the events table's storage-location template and its partition-projection
date format `yyyy/MM/dd/HH` are mutually consistent: for every datehour value the
projection format generates, substituting it into `storage.location.template`
yields exactly the path under the table's declared storage location obtained by
appending the partition value (and a trailing slash) to that location. -/
theorem c2_template_format_consistent (props : EventHubProps) (env : StackEnv)
    (d : DateHour) (hb : ('$' : Char) ∉ env.bucketName.data)
    (hr : ('$' : Char) ∉ env.region.data) :
    ((mkEventHub props env).eventsTable.parameters.lookup "storage.location.template").map
        (fun tmpl => resolveTemplate tmpl (projectedDatehour d))
      = some ((mkEventHub props env).eventsTable.location ++ projectedDatehour d ++ "/") := by
  rw [lookup_storage_template, Option.map_some', resolveTemplate_eq _ _ _ hb hr]
  rfl

/-- Witness for C2 at a concrete stack and calendar hour. -/
theorem c2_witness :
    (('$' : Char) ∉ ("event-lake-bucket" : String).data)
      ∧ (('$' : Char) ∉ ("us-east-1" : String).data)
      ∧ ((mkEventHub ⟨"svc", "prod"⟩
            ⟨"us-east-1", "999988887777", "event-lake-bucket"⟩).eventsTable.parameters.lookup
              "storage.location.template").map
            (fun tmpl => resolveTemplate tmpl (projectedDatehour ⟨2025, 12, 31, 23⟩))
        = some ((mkEventHub ⟨"svc", "prod"⟩
              ⟨"us-east-1", "999988887777", "event-lake-bucket"⟩).eventsTable.location
            ++ projectedDatehour ⟨2025, 12, 31, 23⟩ ++ "/") :=
  ⟨by decide, by decide,
    c2_template_format_consistent ⟨"svc", "prod"⟩
      ⟨"us-east-1", "999988887777", "event-lake-bucket"⟩ ⟨2025, 12, 31, 23⟩
      (by decide) (by decide)⟩

/-- C3: the archive rule's event pattern matches exactly those events whose
source equals the fixed tag `"custom"` and which have a `detail-type` field
present in their detail; any event failing either condition does not match, so
it is excluded from archival. -/
theorem c3_archive_pattern_characterization (props : EventHubProps) (env : StackEnv)
    (e : Event) :
    matchesPattern (mkEventHub props env).archivePattern e = true
      ↔ e.source = "custom" ∧ ∃ kv ∈ e.detail, kv.1 = "detail-type" := by
  simp [matchesPattern, mkEventHub, condSatisfied, List.any_eq_true]

/-- C4: for every stage, the stack publishes exactly one parameter per
discoverable resource — event-bus ARN, event-lake bucket name, Glue database
name, crawler name, table name — each at the stage-qualified path
`/vimo/<stage>/<resource-key>`, and the five parameter paths are pairwise
distinct. -/
theorem c4_published_parameters (props : EventHubProps) (env : StackEnv) :
    ((mkEventHub props env).parameters.map Prod.fst
        = ["/vimo/" ++ props.stage ++ "/event-bus-arn",
           "/vimo/" ++ props.stage ++ "/event-lake-name",
           "/vimo/" ++ props.stage ++ "/glue-database-name",
           "/vimo/" ++ props.stage ++ "/glue-crawler-name",
           "/vimo/" ++ props.stage ++ "/glue-table-name"])
      ∧ (mkEventHub props env).parameters.map Prod.snd
        = [ResourceRef.busArn, ResourceRef.eventLakeName, ResourceRef.glueDatabaseName,
           ResourceRef.glueCrawlerName, ResourceRef.glueTableName]
      ∧ ((mkEventHub props env).parameters.map Prod.fst).Nodup := by
  refine ⟨rfl, rfl, ?_⟩
  have hmap : (mkEventHub props env).parameters.map Prod.fst
      = (["/event-bus-arn", "/event-lake-name", "/glue-database-name",
          "/glue-crawler-name", "/glue-table-name"].map
            fun u : String => "/vimo/" ++ props.stage ++ u) := rfl
  rw [hmap]
  exact (List.nodup_map_iff (paramPath_inj props.stage)).mpr (by decide)

/-- C5: the events table declares exactly the columns
`timestamp:bigint, type:string, data:string, from:string`, is partitioned by the
single key `datehour:string`, and its partition projection is hourly
(interval `1`, unit `HOURS`) with fixed start epoch `2024/01/01/00` and
open-ended `NOW` end. -/
theorem c5_table_schema (props : EventHubProps) (env : StackEnv) :
    ((mkEventHub props env).eventsTable.columns
        = [⟨"timestamp", "bigint"⟩, ⟨"type", "string"⟩, ⟨"data", "string"⟩,
           ⟨"from", "string"⟩])
      ∧ (mkEventHub props env).eventsTable.partitionKeys = [⟨"datehour", "string"⟩]
      ∧ (mkEventHub props env).eventsTable.parameters.lookup "projection.enabled"
          = some "true"
      ∧ (mkEventHub props env).eventsTable.parameters.lookup "projection.datehour.interval"
          = some "1"
      ∧ (mkEventHub props env).eventsTable.parameters.lookup
          "projection.datehour.interval.unit" = some "HOURS"
      ∧ (mkEventHub props env).eventsTable.parameters.lookup "projection.datehour.range"
          = some "2024/01/01/00,NOW" :=
  ⟨rfl, rfl, rfl, rfl, rfl, rfl⟩

/-- C6: table creation is never issued before database creation: the declared
dependencies force the catalog database to precede the events table in every
provisioning order admitted by the declared topology. -/
theorem c6_table_after_database (props : EventHubProps) (env : StackEnv)
    (order : List ResourceId) (h : admissibleOrder (mkEventHub props env) order) :
    order.indexOf ResourceId.glueDatabase < order.indexOf ResourceId.eventsTable :=
  h.2 (ResourceId.eventsTable, ResourceId.glueDatabase) (by simp [mkEventHub])

/-- Witness for C6: a concrete admissible provisioning order. -/
theorem c6_witness :
    admissibleOrder
        (mkEventHub ⟨"service", "dev"⟩ ⟨"eu-west-1", "111122223333", "lake"⟩)
        [ResourceId.bus, ResourceId.eventLake, ResourceId.deliveryStream,
         ResourceId.glueDatabase, ResourceId.glueCrawler, ResourceId.eventsTable]
      ∧ List.indexOf ResourceId.glueDatabase
          [ResourceId.bus, ResourceId.eventLake, ResourceId.deliveryStream,
           ResourceId.glueDatabase, ResourceId.glueCrawler, ResourceId.eventsTable]
        < List.indexOf ResourceId.eventsTable
          [ResourceId.bus, ResourceId.eventLake, ResourceId.deliveryStream,
           ResourceId.glueDatabase, ResourceId.glueCrawler, ResourceId.eventsTable] :=
  ⟨⟨by decide, by decide⟩,
    c6_table_after_database ⟨"service", "dev"⟩ ⟨"eu-west-1", "111122223333", "lake"⟩
      [ResourceId.bus, ResourceId.eventLake, ResourceId.deliveryStream,
       ResourceId.glueDatabase, ResourceId.glueCrawler, ResourceId.eventsTable]
      ⟨by decide, by decide⟩⟩

/-- C7: the catalog database name derived from a stage is deterministic and
injective: two stack instances have the same database name exactly when their
stages are equal. -/
theorem c7_database_name_deterministic_injective (p1 p2 : EventHubProps)
    (e1 e2 : StackEnv) :
    (mkEventHub p1 e1).glueDatabase.name = (mkEventHub p2 e2).glueDatabase.name
      ↔ p1.stage = p2.stage := by
  constructor
  · intro h
    have hd := congrArg String.data h
    simp only [mkEventHub] at hd
    rw [String.data_append, String.data_append] at hd
    exact String.ext (List.append_cancel_left hd)
  · intro h
    simp [mkEventHub, h]

/-- C8: the removal policy declared on the event-lake bucket is `retain` for
every construction of the stack. -/
theorem c8_removal_policy_retain (props : EventHubProps) (env : StackEnv) :
    (mkEventHub props env).eventLake.removalPolicy = RemovalPolicy.retain := rfl

/-- C9 counterexample: the event-lake bucket's declared configuration does not
enable versioning — at a concrete stack construction the bucket declares no
versioning setting at all, refuting the claim that versioning is enabled. -/
theorem c9_counterexample :
    ¬ ((mkEventHub ⟨"service", "dev"⟩
          ⟨"eu-west-1", "123456789012", "lake-bucket"⟩).eventLake.versioned
        = some true) := by
  decide

/-- C9 (amended): the event-lake bucket is declared with the retain-on-teardown
removal policy, and no versioning setting is declared on it (the provider
default, unversioned, applies). -/
theorem c9_bucket_declared_config (props : EventHubProps) (env : StackEnv) :
    (mkEventHub props env).eventLake
      = { removalPolicy := RemovalPolicy.retain, versioned := none } := rfl

/-- C10: the declared topology is independent of `serviceName`: two stack
constructions whose props differ only in `serviceName` (same stage, same
environment) declare identical resource configurations, dependencies, and
parameters. -/
theorem c10_serviceName_independent (p1 p2 : EventHubProps) (env : StackEnv)
    (h : p1.stage = p2.stage) : mkEventHub p1 env = mkEventHub p2 env := by
  cases p1; cases p2; simp only at h; subst h; rfl

/-- Witness for C10: two concrete props differing only in `serviceName`. -/
theorem c10_witness :
    mkEventHub ⟨"service-a", "dev"⟩ ⟨"eu-west-1", "111122223333", "lake"⟩
      = mkEventHub ⟨"service-b", "dev"⟩ ⟨"eu-west-1", "111122223333", "lake"⟩ :=
  c10_serviceName_independent ⟨"service-a", "dev"⟩ ⟨"service-b", "dev"⟩
    ⟨"eu-west-1", "111122223333", "lake"⟩ rfl

end EventHub
